import Mathlib

/-!
# To-do list client (`static/js/app.js`): session, task cache and filters

A shallow embedding of the browser client.  The four global variables of the
script (`currentUser`, `authToken`, `allTodos`, `currentFilter`), the
`localStorage` entries and the part of the DOM the functions write are fields of
an explicit `Client` record; every function of the script becomes a function on
that record.

Modelling conventions.

* JavaScript values are `JsVal := Option Json` (`none` is `undefined`); JSON
  numbers are integers.
* The built-ins `String.prototype.toLowerCase`, `JSON.stringify` and
  `JSON.parse` are not code of the script: the functions that call them take
  them as parameters (`toLowerCase`, `stringify`, `parse`).  Reference
  implementations (`asciiToLowerCase`, `Json.render`, `Json.read`) are given to
  evaluate the model on concrete inputs.
* An `async` function is run in one piece: the outcome of each `fetch` it
  performs is an argument (`FetchOutcome`).  The requests, alerts and console
  diagnostics it produces are returned as a list of `Effect`s.
* An exception that leaves a function is returned in `Run.thrown`; the state
  reached before the exception is kept, as in JavaScript.
* The task list received from `/api/todos` is typed (`List Task`); `title` is a
  string, `description` a string or `null`, `completed` any JavaScript value.
-/

namespace TodoApp

/-! ## JavaScript values -/

/-- JSON values, as produced by `response.json()` and `JSON.parse`. -/
inductive Json where
  | null
  | bool (b : Bool)
  | num (n : Int)
  | str (s : String)
  | arr (xs : List Json)
  | obj (kvs : List (String × Json))

/-- A JavaScript value; `none` stands for `undefined`. -/
abbrev JsVal := Option Json

/-- The abstract operation `ToBoolean`: the truthiness used by `!x`, `x && y`,
`x || y`, `x ? a : b` and `if (x)`. -/
def truthy : JsVal → Bool
  | none => false
  | some .null => false
  | some (.bool b) => b
  | some (.num n) => decide (n ≠ 0)
  | some (.str s) => decide (s ≠ "")
  | some (.arr _) => true
  | some (.obj _) => true

/-- Whether a value is one of the two booleans `true`, `false`. -/
def isBoolean : JsVal → Bool
  | some (.bool _) => true
  | _ => false

mutual
/-- The abstract operation `ToString` on a JSON value (template literals,
`alert`, the value argument of `localStorage.setItem`). -/
def Json.toJsString : Json → String
  | .null => "null"
  | .bool b => if b then "true" else "false"
  | .num n => toString n
  | .str s => s
  | .arr xs => Json.joinJs xs
  | .obj _ => "[object Object]"
/-- The text `Array.prototype.join` gives for an array: `null` elements give the
empty string. -/
def Json.joinJs : List Json → String
  | [] => ""
  | [x] => (match x with
      | .null => ""
      | y => Json.toJsString y)
  | x :: y :: r => (match x with
      | .null => ""
      | z => Json.toJsString z) ++ "," ++ Json.joinJs (y :: r)
end

/-- The operation `ToString` on a JavaScript value. -/
def toJsString : JsVal → String
  | none => "undefined"
  | some j => j.toJsString

/-- An exception value: the `name` and `message` of an `Error` object. -/
structure JsError where
  name : String
  message : String
deriving DecidableEq, Repr

/-- The `TypeError` raised by reading a property of `null` or `undefined`. -/
def propertyError (base key : String) : JsError :=
  ⟨"TypeError", "Cannot read properties of " ++ base ++ " (reading '" ++ key ++ "')"⟩

/-- The `SyntaxError` raised by `JSON.parse` on a text that is not JSON. -/
def jsonSyntaxError : JsError :=
  ⟨"SyntaxError", "Unexpected token in JSON"⟩

/-- Property read `data.key` on a JSON value: `null` throws, an object gives the
member or `undefined`, every other value gives `undefined` for the keys the
script reads. -/
def getProp (data : Json) (key : String) : Except JsError JsVal :=
  match data with
  | .null => .error (propertyError "null" key)
  | .obj kvs => .ok (kvs.lookup key)
  | _ => .ok none

/-- Property read `v.key` on a JavaScript value. -/
def readProp (v : JsVal) (key : String) : Except JsError JsVal :=
  match v with
  | none => .error (propertyError "undefined" key)
  | some j => getProp j key

/-- The method `String.prototype.includes`: `t` occurs in `s` as a contiguous
block. -/
def includesChars : List Char → List Char → Bool
  | [], t => t.isEmpty
  | c :: cs, t => t.isPrefixOf (c :: cs) || includesChars cs t

/-- The call `s.includes(t)`. -/
def jsIncludes (s t : String) : Bool :=
  includesChars s.data t.data

/-! ## Data model -/

/-- A task of the fetched collection. -/
structure Task where
  id : Int
  title : String
  description : Option String
  category : String
  priority : String
  completed : JsVal
  created_at : String
  due_date : Option String

/-- The persistent key-value store `localStorage`. -/
abbrev Storage := List (String × String)

/-- The call `localStorage.getItem(key)`; `none` is `null`. -/
def getItem (st : Storage) (key : String) : Option String :=
  st.lookup key

/-- The call `localStorage.setItem(key, value)`. -/
def setItem : Storage → String → String → Storage
  | [], key, value => [(key, value)]
  | (k, v) :: rest, key, value =>
    if k = key then (key, value) :: rest else (k, v) :: setItem rest key value

/-- The call `localStorage.removeItem(key)`. -/
def removeItem (st : Storage) (key : String) : Storage :=
  st.filter (fun p => decide (p.1 ≠ key))

/-- Which of `#authSection` and `#todoDashboard` is displayed. -/
inductive Screen where
  | authSection
  | todoDashboard
deriving DecidableEq, Repr

/-- Which of `#loginForm` and `#registerForm` is displayed. -/
inductive AuthForm where
  | loginForm
  | registerForm
deriving DecidableEq, Repr

/-- The content of the task modal after `showTodoForm`. -/
inductive Modal where
  | addNewTask
  | editTask (todoId : Int) (title description category priority dueDate : String)
deriving DecidableEq, Repr

/-- The part of the document the modelled functions write. -/
structure Dom where
  screen : Screen
  authForm : AuthForm
  usernameDisplay : JsVal
  todoList : List Task
  modal : Option Modal

/-- The client state: the four global variables of the script, the persistent
store and the document. -/
structure Client where
  currentUser : JsVal
  authToken : JsVal
  allTodos : List Task
  currentFilter : String
  localStorage : Storage
  dom : Dom

/-- The state after the script is loaded (lines 2-5), before `DOMContentLoaded`. -/
def Client.fresh (storage : Storage) (dom : Dom) : Client :=
  { currentUser := some .null
    authToken := some .null
    allTodos := []
    currentFilter := "all"
    localStorage := storage
    dom := dom }

/-- What a function does to the outside world. -/
inductive Effect where
  | fetch (method url : String) (authorization : Option String) (body : Option String)
  | alert (message : String)
  | consoleError (label detail : String)
deriving DecidableEq, Repr

/-- The outcome of `fetch(...)` followed by `response.json()`. -/
inductive FetchOutcome (β : Type) where
  | rejected (e : JsError)
  | unreadable (ok : Bool) (e : JsError)
  | response (ok : Bool) (data : β)

/-- The body of a response of `GET /api/todos`. -/
structure TodosData where
  todos : List Task
  error : JsVal

/-- The result of running a function: the state reached, the effects produced
and the exception that left the function, if any. -/
structure Run where
  client : Client
  effects : List Effect
  thrown : Option JsError

/-- The base URL `API_BASE`. -/
def API_BASE : String := "/api"

/-! ## View switching (lines 31-40, 137-145) -/

/-- The function `showAuthSection`. -/
def showAuthSection (c : Client) : Client :=
  { c with dom := { c.dom with screen := .authSection } }

/-- The function `showTodoDashboard`: the two `display` writes, then the write of
`currentUser.username`, which throws when `currentUser` is `null` or
`undefined`. -/
def showTodoDashboard (c : Client) : Client × Option JsError :=
  let c1 : Client := { c with dom := { c.dom with screen := .todoDashboard } }
  match readProp c1.currentUser "username" with
  | .error e => (c1, some e)
  | .ok v => ({ c1 with dom := { c1.dom with usernameDisplay := v } }, none)

/-- The function `showLogin`. -/
def showLogin (c : Client) : Client :=
  { c with dom := { c.dom with authForm := .loginForm } }

/-- The function `showRegister`. -/
def showRegister (c : Client) : Client :=
  { c with dom := { c.dom with authForm := .registerForm } }

/-! ## Task cache and filters (lines 148-257, 350-353) -/

/-- The function `filterTodosByStatus`; the global `currentFilter` it reads is
the first argument. -/
def filterTodosByStatus (currentFilter : String) (todos : List Task) : List Task :=
  if currentFilter = "active" then
    todos.filter (fun todo => !truthy todo.completed)
  else if currentFilter = "completed" then
    todos.filter (fun todo => truthy todo.completed)
  else
    todos

/-- The function `renderTodos`: `#todoList` shows the tasks selected by
`filterTodosByStatus(allTodos)` (the empty-state placeholder when there are
none). -/
def renderTodos (c : Client) : Client :=
  { c with dom := { c.dom with todoList := filterTodosByStatus c.currentFilter c.allTodos } }

/-- The function `filterTodos`. -/
def filterTodos (filter : String) (c : Client) : Client :=
  renderTodos { c with currentFilter := filter }

/-- The callback of the `filter` call in `searchTodos`:
`title.toLowerCase().includes(searchTerm) ||
 (description && description.toLowerCase().includes(searchTerm))`. -/
def searchMatches (toLowerCase : String → String) (searchTerm : String) (todo : Task) : Bool :=
  jsIncludes (toLowerCase todo.title) searchTerm ||
    (match todo.description with
     | none => false
     | some d => decide (d ≠ "") && jsIncludes (toLowerCase d) searchTerm)

/-- The list `filteredTodos` computed by `searchTodos` from the value of
`#searchInput`. -/
def searchSelection (toLowerCase : String → String) (searchInput : String)
    (allTodos : List Task) : List Task :=
  allTodos.filter (searchMatches toLowerCase (toLowerCase searchInput))

/-- The function `searchTodos`: `#todoList` shows one item per selected task. -/
def searchTodos (toLowerCase : String → String) (searchInput : String) (c : Client) : Client :=
  { c with dom := { c.dom with todoList := searchSelection toLowerCase searchInput c.allTodos } }

/-- The expression `allTodos.find(t => t.id === todoId)` of `toggleTodo` and
`editTodo`; `none` is `undefined`. -/
def findTodo (allTodos : List Task) (todoId : Int) : Option Task :=
  allTodos.find? (fun t => decide (t.id = todoId))

/-- The function `showTodoForm`. -/
def showTodoForm (todo : Option Task) (c : Client) : Client :=
  match todo with
  | some t =>
    { c with dom := { c.dom with modal := some (.editTask t.id t.title
        (match t.description with
         | some d => d
         | none => "")
        t.category t.priority
        (match t.due_date with
         | some d => if d ≠ "" then d.take 16 else ""
         | none => "")) } }
  | none => { c with dom := { c.dom with modal := some .addNewTask } }

/-- The function `editTodo`. -/
def editTodo (todoId : Int) (c : Client) : Client :=
  showTodoForm (findTodo c.allTodos todoId) c

/-- The function `loadTodos`. -/
def loadTodos (net : FetchOutcome TodosData) (c : Client) : Run :=
  if !truthy c.authToken then
    { client := c, effects := [], thrown := none }
  else
    let request := Effect.fetch "GET" (API_BASE ++ "/todos")
      (some ("Bearer " ++ toJsString c.authToken)) none
    match net with
    | .rejected e =>
      { client := c, effects := [request, .consoleError "Error loading todos:" e.message],
        thrown := none }
    | .unreadable _ e =>
      { client := c, effects := [request, .consoleError "Error loading todos:" e.message],
        thrown := none }
    | .response ok data =>
      if ok then
        { client := renderTodos { c with allTodos := data.todos }, effects := [request],
          thrown := none }
      else
        { client := c,
          effects := [request, .consoleError "Error loading todos:" (toJsString data.error)],
          thrown := none }

/-- The function `loadStatistics`: its request and diagnostics.  The statistics
panel written by `renderStatistics` is not part of `Dom`. -/
def loadStatistics (net : FetchOutcome Json) (c : Client) : List Effect :=
  if !truthy c.authToken then
    []
  else
    let request := Effect.fetch "GET" (API_BASE ++ "/statistics")
      (some ("Bearer " ++ toJsString c.authToken)) none
    match net with
    | .rejected e => [request, .consoleError "Error loading statistics:" e.message]
    | .unreadable _ e => [request, .consoleError "Error loading statistics:" e.message]
    | .response ok data =>
      if ok then
        [request]
      else
        match getProp data "error" with
        | .error e => [request, .consoleError "Error loading statistics:" e.message]
        | .ok v => [request, .consoleError "Error loading statistics:" (toJsString v)]

/-! ## Authentication (lines 16-29, 42-135) -/

/-- The argument `JSON.stringify(v)` passed to `setItem`, which turns it into a
string: `JSON.stringify(undefined)` is `undefined`. -/
def stringifyArg (stringify : Json → String) (v : JsVal) : String :=
  match v with
  | none => "undefined"
  | some j => stringify j

/-- The body of the `if (response.ok)` branch shared by `login` and `register`
up to the call of `showTodoDashboard` (lines 63-69 and 106-112): the two
assignments, the two `setItem` calls and the switch to the dashboard.  The
result is the state reached and the exception raised, if any. -/
def acceptSession (stringify : Json → String) (data : Json) (c : Client) :
    Client × Option JsError :=
  match getProp data "access_token" with
  | .error e => (c, some e)
  | .ok token =>
    let c1 : Client := { c with authToken := token }
    match getProp data "user" with
    | .error e => (c1, some e)
    | .ok user =>
      let c2 : Client := { c1 with currentUser := user }
      let c3 : Client :=
        { c2 with localStorage := setItem c2.localStorage "authToken" (toJsString c2.authToken) }
      let c4 : Client :=
        { c3 with localStorage :=
            setItem c3.localStorage "currentUser" (stringifyArg stringify c3.currentUser) }
      showTodoDashboard c4

/-- The message of `alert(data.error || fallback)`. -/
def errorMessage (data : Json) (fallback : String) : Except JsError String :=
  match getProp data "error" with
  | .error e => .error e
  | .ok v => .ok (if truthy v then toJsString v else fallback)

/-- The function `login`; `email` and `password` are the values of the two
inputs. -/
def login (stringify : Json → String) (email password : String)
    (net : FetchOutcome Json) (todosNet : FetchOutcome TodosData)
    (statsNet : FetchOutcome Json) (c : Client) : Run :=
  if email = "" ∨ password = "" then
    { client := c, effects := [.alert "Please enter both email and password"], thrown := none }
  else
    let request := Effect.fetch "POST" (API_BASE ++ "/login") none
      (some (stringify (.obj [("email", .str email), ("password", .str password)])))
    match net with
    | .rejected e =>
      { client := c, effects := [request, .alert ("Login error: " ++ e.message)], thrown := none }
    | .unreadable _ e =>
      { client := c, effects := [request, .alert ("Login error: " ++ e.message)], thrown := none }
    | .response ok data =>
      if ok then
        match acceptSession stringify data c with
        | (c1, some e) =>
          { client := c1, effects := [request, .alert ("Login error: " ++ e.message)],
            thrown := none }
        | (c1, none) =>
          let r := loadTodos todosNet c1
          { client := r.client,
            effects := request :: (r.effects ++ loadStatistics statsNet r.client),
            thrown := none }
      else
        match errorMessage data "Login failed" with
        | .error e =>
          { client := c, effects := [request, .alert ("Login error: " ++ e.message)],
            thrown := none }
        | .ok m => { client := c, effects := [request, .alert m], thrown := none }

/-- The function `register`; `username`, `email` and `password` are the values
of the three inputs. -/
def register (stringify : Json → String) (username email password : String)
    (net : FetchOutcome Json) (todosNet : FetchOutcome TodosData)
    (statsNet : FetchOutcome Json) (c : Client) : Run :=
  if username = "" ∨ email = "" ∨ password = "" then
    { client := c, effects := [.alert "Please fill all fields"], thrown := none }
  else
    let request := Effect.fetch "POST" (API_BASE ++ "/register") none
      (some (stringify (.obj [("username", .str username), ("email", .str email),
        ("password", .str password)])))
    match net with
    | .rejected e =>
      { client := c, effects := [request, .alert ("Registration error: " ++ e.message)],
        thrown := none }
    | .unreadable _ e =>
      { client := c, effects := [request, .alert ("Registration error: " ++ e.message)],
        thrown := none }
    | .response ok data =>
      if ok then
        match acceptSession stringify data c with
        | (c1, some e) =>
          { client := c1, effects := [request, .alert ("Registration error: " ++ e.message)],
            thrown := none }
        | (c1, none) =>
          let r := loadTodos todosNet c1
          { client := showLogin r.client,
            effects := request :: (r.effects ++ loadStatistics statsNet r.client),
            thrown := none }
      else
        match errorMessage data "Registration failed" with
        | .error e =>
          { client := c, effects := [request, .alert ("Registration error: " ++ e.message)],
            thrown := none }
        | .ok m => { client := c, effects := [request, .alert m], thrown := none }

/-- The function `logout`. -/
def logout (c : Client) : Client :=
  showAuthSection
    { c with
      authToken := some .null
      currentUser := some .null
      localStorage := removeItem (removeItem c.localStorage "authToken") "currentUser" }

/-- The function `checkAuthStatus`, run on `DOMContentLoaded`. -/
def checkAuthStatus (parse : String → Option Json)
    (todosNet : FetchOutcome TodosData) (statsNet : FetchOutcome Json) (c : Client) : Run :=
  let token := getItem c.localStorage "authToken"
  let user := getItem c.localStorage "currentUser"
  match token, user with
  | some t, some u =>
    if t ≠ "" ∧ u ≠ "" then
      let c1 : Client := { c with authToken := some (.str t) }
      match parse u with
      | none => { client := c1, effects := [], thrown := some jsonSyntaxError }
      | some v =>
        match showTodoDashboard { c1 with currentUser := some v } with
        | (c2, some e) => { client := c2, effects := [], thrown := some e }
        | (c2, none) =>
          let r := loadTodos todosNet c2
          { client := r.client, effects := r.effects ++ loadStatistics statsNet r.client,
            thrown := none }
    else
      { client := showAuthSection c, effects := [], thrown := none }
  | _, _ => { client := showAuthSection c, effects := [], thrown := none }

/-! ## Reference built-ins

Executable stand-ins for the three built-ins the script calls, used to evaluate
the model on concrete inputs.  `asciiToLowerCase` lowers the letters `A`-`Z`;
`Json.render` writes compact JSON text as `JSON.stringify` does; `Json.read`
reads JSON text whose numbers are integers. -/

/-- Lower-casing of the ASCII letters. -/
def asciiToLowerCase (s : String) : String :=
  ⟨s.data.map Char.toLower⟩

/-- The double quote character. -/
def dquote : Char := Char.ofNat 34

/-- The backslash character. -/
def backslash : Char := Char.ofNat 92

/-- The opening brace. -/
def lbrace : Char := Char.ofNat 123

/-- The closing brace. -/
def rbrace : Char := Char.ofNat 125

/-- The hexadecimal digit of a number below 16. -/
def hexDigit (n : Nat) : Char :=
  if n < 10 then Char.ofNat (48 + n) else Char.ofNat (87 + n)

/-- The value of a hexadecimal digit. -/
def hexValue (c : Char) : Option Nat :=
  if 48 ≤ c.toNat ∧ c.toNat ≤ 57 then some (c.toNat - 48)
  else if 97 ≤ c.toNat ∧ c.toNat ≤ 102 then some (c.toNat - 87)
  else if 65 ≤ c.toNat ∧ c.toNat ≤ 70 then some (c.toNat - 55)
  else none

/-- The text of one character inside a JSON string (`QuoteJSONString`). -/
def quoteChar (c : Char) : List Char :=
  if c = dquote then [backslash, dquote]
  else if c = backslash then [backslash, backslash]
  else if c.toNat = 8 then [backslash, 'b']
  else if c.toNat = 9 then [backslash, 't']
  else if c.toNat = 10 then [backslash, 'n']
  else if c.toNat = 12 then [backslash, 'f']
  else if c.toNat = 13 then [backslash, 'r']
  else if c.toNat < 32 then
    [backslash, 'u', '0', '0', hexDigit (c.toNat / 16), hexDigit (c.toNat % 16)]
  else [c]

/-- The text of a JSON string. -/
def renderString (s : String) : List Char :=
  dquote :: (s.data.flatMap quoteChar ++ [dquote])

mutual
/-- The characters of the compact JSON text of a value. -/
def Json.renderChars : Json → List Char
  | .null => ['n', 'u', 'l', 'l']
  | .bool b => if b then ['t', 'r', 'u', 'e'] else ['f', 'a', 'l', 's', 'e']
  | .num n => (toString n).data
  | .str s => renderString s
  | .arr xs => '[' :: (Json.renderElems xs ++ [']'])
  | .obj kvs => lbrace :: (Json.renderMembers kvs ++ [rbrace])
/-- The elements of an array, separated by commas. -/
def Json.renderElems : List Json → List Char
  | [] => []
  | [x] => Json.renderChars x
  | x :: y :: r => Json.renderChars x ++ ',' :: Json.renderElems (y :: r)
/-- The members of an object, separated by commas. -/
def Json.renderMembers : List (String × Json) → List Char
  | [] => []
  | [(k, x)] => renderString k ++ ':' :: Json.renderChars x
  | (k, x) :: y :: r =>
    renderString k ++ ':' :: (Json.renderChars x ++ ',' :: Json.renderMembers (y :: r))
end

/-- Reference `JSON.stringify`. -/
def Json.render (j : Json) : String :=
  ⟨j.renderChars⟩

/-- JSON white space. -/
def isWs (c : Char) : Bool :=
  c.toNat = 32 || c.toNat = 9 || c.toNat = 10 || c.toNat = 13

/-- Drops leading white space. -/
def skipWs : List Char → List Char
  | [] => []
  | c :: r => if isWs c then skipWs r else c :: r

/-- Reads the digits at the head of the text. -/
def readDigits : List Char → Nat → Nat × List Char
  | [], acc => (acc, [])
  | c :: r, acc =>
    if c.isDigit then readDigits r (acc * 10 + (c.toNat - 48)) else (acc, c :: r)

/-- Whether the text goes on with a fraction or an exponent. -/
def startsFraction : List Char → Bool
  | [] => false
  | c :: _ => c = '.' || c = 'e' || c = 'E'

/-- Reads a natural number without a superfluous leading zero. -/
def readNat : List Char → Option (Nat × List Char)
  | [] => none
  | c :: r =>
    if c = '0' then
      (match r with
       | [] => some (0, [])
       | d :: r1 => if d.isDigit || startsFraction (d :: r1) then none else some (0, d :: r1))
    else if c.isDigit then
      let res := readDigits (c :: r) 0
      if startsFraction res.2 then none else some res
    else none

/-- Reads an integer. -/
def readInt : List Char → Option (Int × List Char)
  | [] => none
  | c :: r =>
    if c = '-' then (readNat r).map (fun p => (-(p.1 : Int), p.2))
    else (readNat (c :: r)).map (fun p => ((p.1 : Int), p.2))

/-- Reads the rest of a string after its opening quote; `fuel` bounds the number
of characters read and `acc` holds the characters read so far, last first. -/
def readStringBody : Nat → List Char → List Char → Option (String × List Char)
  | 0, _, _ => none
  | _ + 1, [], _ => none
  | fuel + 1, c :: r, acc =>
    if c = dquote then some (⟨acc.reverse⟩, r)
    else if c = backslash then
      (match r with
       | [] => none
       | e :: r1 =>
         if e = dquote then readStringBody fuel r1 (dquote :: acc)
         else if e = backslash then readStringBody fuel r1 (backslash :: acc)
         else if e = '/' then readStringBody fuel r1 ('/' :: acc)
         else if e = 'b' then readStringBody fuel r1 (Char.ofNat 8 :: acc)
         else if e = 't' then readStringBody fuel r1 (Char.ofNat 9 :: acc)
         else if e = 'n' then readStringBody fuel r1 (Char.ofNat 10 :: acc)
         else if e = 'f' then readStringBody fuel r1 (Char.ofNat 12 :: acc)
         else if e = 'r' then readStringBody fuel r1 (Char.ofNat 13 :: acc)
         else if e = 'u' then
           (match r1 with
            | h1 :: h2 :: h3 :: h4 :: r2 =>
              (match hexValue h1, hexValue h2, hexValue h3, hexValue h4 with
               | some a, some b, some c4, some d =>
                 readStringBody fuel r2 (Char.ofNat (((a * 16 + b) * 16 + c4) * 16 + d) :: acc)
               | _, _, _, _ => none)
            | _ => none)
         else none)
    else if c.toNat < 32 then none
    else readStringBody fuel r (c :: acc)

mutual
/-- Reads one JSON value; `fuel` bounds the number of values read. -/
def readValue : Nat → List Char → Option (Json × List Char)
  | 0, _ => none
  | fuel + 1, cs =>
    match skipWs cs with
    | [] => none
    | c :: r =>
      if c = 'n' then
        (match r with
         | 'u' :: 'l' :: 'l' :: r1 => some (.null, r1)
         | _ => none)
      else if c = 't' then
        (match r with
         | 'r' :: 'u' :: 'e' :: r1 => some (.bool true, r1)
         | _ => none)
      else if c = 'f' then
        (match r with
         | 'a' :: 'l' :: 's' :: 'e' :: r1 => some (.bool false, r1)
         | _ => none)
      else if c = dquote then
        (readStringBody (r.length + 1) r []).map (fun p => (.str p.1, p.2))
      else if c = '[' then
        (match skipWs r with
         | ']' :: r1 => some (.arr [], r1)
         | _ => (readElems fuel r).map (fun p => (.arr p.1, p.2)))
      else if c = lbrace then
        (match skipWs r with
         | [] => none
         | d :: r1 =>
           if d = rbrace then some (.obj [], r1)
           else (readMembers fuel r).map (fun p => (.obj p.1, p.2)))
      else (readInt (c :: r)).map (fun p => (.num p.1, p.2))
/-- Reads the elements of an array up to the closing bracket. -/
def readElems : Nat → List Char → Option (List Json × List Char)
  | 0, _ => none
  | fuel + 1, cs =>
    match readValue fuel cs with
    | none => none
    | some (v, r) =>
      (match skipWs r with
       | [] => none
       | d :: r1 =>
         if d = ',' then (readElems fuel r1).map (fun p => (v :: p.1, p.2))
         else if d = ']' then some ([v], r1)
         else none)
/-- Reads the members of an object up to the closing brace. -/
def readMembers : Nat → List Char → Option (List (String × Json) × List Char)
  | 0, _ => none
  | fuel + 1, cs =>
    match skipWs cs with
    | [] => none
    | q :: r0 =>
      if q = dquote then
        (match readStringBody (r0.length + 1) r0 [] with
         | none => none
         | some (k, r) =>
           (match skipWs r with
            | [] => none
            | colon :: r1 =>
              if colon = ':' then
                (match readValue fuel r1 with
                 | none => none
                 | some (v, r2) =>
                   (match skipWs r2 with
                    | [] => none
                    | d :: r3 =>
                      if d = ',' then (readMembers fuel r3).map (fun p => ((k, v) :: p.1, p.2))
                      else if d = rbrace then some ([(k, v)], r3)
                      else none))
              else none))
      else none
end

/-- Reference `JSON.parse`; `none` stands for the `SyntaxError` it throws. -/
def Json.read (text : String) : Option Json :=
  match readValue (text.data.length + 1) text.data with
  | none => none
  | some (v, rest) => if (skipWs rest).isEmpty then some v else none

/-! ## Sample data -/

/-- A task with the given id, title, description and completion flag. -/
def sampleTask (id : Int) (title : String) (description : Option String) (completed : Bool) :
    Task :=
  { id := id, title := title, description := description, category := "shopping",
    priority := "low", completed := some (.bool completed),
    created_at := "2024-01-01T10:00:00", due_date := none }

/-- Three tasks: one active, one completed, one active without description. -/
def sampleTodos : List Task :=
  [sampleTask 5 "Buy MILK" (some "two bottles") false,
   sampleTask 7 "Write report" (some "Milk the deadline") true,
   sampleTask 9 "Call home" none false]

/-- A document showing the authentication section. -/
def sampleDom : Dom :=
  { screen := .authSection, authForm := .loginForm, usernameDisplay := none, todoList := [],
    modal := none }

/-- The user profile `{id: 1, username: "a"}`. -/
def sampleUser : Json :=
  .obj [("id", .num 1), ("username", .str "a")]

/-- An authenticated client holding `sampleTodos`. -/
def sampleClient : Client :=
  { currentUser := some sampleUser
    authToken := some (.str "T")
    allTodos := sampleTodos
    currentFilter := "all"
    localStorage := [("authToken", "T"), ("currentUser", sampleUser.render)]
    dom := { sampleDom with screen := .todoDashboard, todoList := sampleTodos } }

/-- A response of `GET /api/todos` carrying `sampleTodos`. -/
def sampleTodosNet : FetchOutcome TodosData :=
  .response true { todos := sampleTodos, error := none }

/-- A response of `GET /api/statistics`. -/
def sampleStatsNet : FetchOutcome Json :=
  .response true (.obj [("total", .num 3), ("completed", .num 1), ("pending", .num 2)])

/-! ## Lemmas on the built-in operations -/

theorem includesChars_iff (s t : List Char) : includesChars s t = true ↔ t <:+: s := by
  induction s with
  | nil => cases t <;> simp [includesChars]
  | cons c cs ih =>
    simp only [includesChars, Bool.or_eq_true, ih, List.infix_cons_iff,
      List.isPrefixOf_iff_prefix]

theorem jsIncludes_iff (s t : String) : jsIncludes s t = true ↔ t.data <:+: s.data :=
  includesChars_iff s.data t.data

theorem jsIncludes_empty (s : String) : jsIncludes s "" = true := by
  rw [jsIncludes_iff]
  exact List.nil_infix

theorem jsIncludes_of_empty (t : String) : jsIncludes "" t = true ↔ t = "" := by
  rw [jsIncludes_iff]
  constructor
  · intro h
    have h1 : t.data = [] := List.infix_nil.mp h
    exact String.ext h1
  · rintro rfl
    exact List.nil_infix

theorem getItem_setItem_same (st : Storage) (key value : String) :
    getItem (setItem st key value) key = some value := by
  induction st with
  | nil => simp [setItem, getItem, List.lookup]
  | cons p rest ih =>
    obtain ⟨k, v⟩ := p
    by_cases h : k = key
    · simp [setItem, h, getItem, List.lookup]
    · have h2 : (key == k) = false := by simpa using fun e => h e.symm
      simp only [setItem, h, if_false, getItem, List.lookup, h2]
      exact ih

theorem getItem_setItem_other (st : Storage) (key other value : String) (hne : other ≠ key) :
    getItem (setItem st key value) other = getItem st other := by
  induction st with
  | nil =>
    have h2 : (other == key) = false := by simpa using hne
    simp [setItem, getItem, List.lookup, h2]
  | cons p rest ih =>
    obtain ⟨k, v⟩ := p
    by_cases h : k = key
    · subst h
      have h2 : (other == k) = false := by simpa using hne
      simp [setItem, getItem, List.lookup, h2]
    · simp only [setItem, h, if_false, getItem, List.lookup]
      cases hk : (other == k)
      · exact ih
      · rfl

theorem getItem_removeItem (st : Storage) (key other : String) :
    getItem (removeItem st key) other = if other = key then none else getItem st other := by
  induction st with
  | nil => simp [removeItem, getItem]
  | cons p rest ih =>
    obtain ⟨k, v⟩ := p
    unfold removeItem getItem at ih ⊢
    rw [List.filter_cons]
    by_cases h : k = key
    · subst h
      by_cases ho : other = k
      · subst ho
        simpa using ih
      · have h2 : (other == k) = false := by simpa using ho
        rw [if_neg (by simp), ih, if_neg ho, if_neg ho, List.lookup, h2]
    · rw [if_pos (by simpa using h)]
      by_cases ho : other = key
      · subst ho
        have h2 : (other == k) = false := by simpa using fun e => h e.symm
        rw [List.lookup, h2, ih, if_pos rfl, if_pos rfl]
      · rw [if_neg ho] at ih ⊢
        cases hk : (other == k)
        · rw [List.lookup, hk, List.lookup, hk]
          exact ih
        · rw [List.lookup, hk, List.lookup, hk]

theorem getItem_removeItem_same (st : Storage) (key : String) :
    getItem (removeItem st key) key = none := by
  rw [getItem_removeItem, if_pos rfl]

theorem getItem_removeItem_other (st : Storage) (key other : String) (hne : other ≠ key) :
    getItem (removeItem st key) other = getItem st other := by
  rw [getItem_removeItem, if_neg hne]

/-! ## Lemmas on the filters -/

theorem filterTodosByStatus_all (todos : List Task) :
    filterTodosByStatus "all" todos = todos := by
  simp [filterTodosByStatus]

theorem filterTodosByStatus_active (todos : List Task) :
    filterTodosByStatus "active" todos = todos.filter (fun todo => !truthy todo.completed) := by
  simp [filterTodosByStatus]

theorem filterTodosByStatus_completed (todos : List Task) :
    filterTodosByStatus "completed" todos = todos.filter (fun todo => truthy todo.completed) := by
  simp [filterTodosByStatus]

theorem filterTodosByStatus_sublist (status : String) (todos : List Task) :
    (filterTodosByStatus status todos).Sublist todos := by
  unfold filterTodosByStatus
  split
  · exact List.filter_sublist _
  · split
    · exact List.filter_sublist _
    · exact List.Sublist.refl _

theorem searchMatches_iff (toLowerCase : String → String) (hempty : toLowerCase "" = "")
    (searchTerm : String) (todo : Task) :
    searchMatches toLowerCase searchTerm todo = true ↔
      (searchTerm.data <:+: (toLowerCase todo.title).data ∨
        ∃ d, todo.description = some d ∧ searchTerm.data <:+: (toLowerCase d).data) := by
  unfold searchMatches
  cases hd : todo.description with
  | none => simp [jsIncludes_iff]
  | some d =>
    by_cases hne : d = ""
    · subst hne
      simp only [Bool.or_eq_true, jsIncludes_iff, Bool.and_eq_true, decide_eq_true_eq,
        Option.some.injEq, exists_eq_left', hempty]
      constructor
      · rintro (h | ⟨h, _⟩)
        · exact Or.inl h
        · exact absurd rfl h
      · rintro (h | h)
        · exact Or.inl h
        · have h1 : searchTerm.data = [] := List.infix_nil.mp h
          rw [h1]
          exact Or.inl List.nil_infix
    · simp [jsIncludes_iff, hne]

theorem findTodo_of_mem (todos : List Task) (hdistinct : (todos.map Task.id).Nodup)
    (t : Task) (ht : t ∈ todos) : findTodo todos t.id = some t := by
  unfold findTodo
  induction todos with
  | nil => cases ht
  | cons a l ih =>
    rw [List.map_cons, List.nodup_cons] at hdistinct
    rcases List.mem_cons.mp ht with rfl | hmem
    · simp [List.find?]
    · have hne : a.id ≠ t.id := by
        intro h
        exact hdistinct.1 (h ▸ List.mem_map_of_mem Task.id hmem)
      simp only [List.find?, hne, decide_False]
      exact ih hdistinct.2 hmem

/-! ## Lemmas on the session functions -/

theorem showTodoDashboard_globals (c : Client) :
    (showTodoDashboard c).1.authToken = c.authToken ∧
      (showTodoDashboard c).1.currentUser = c.currentUser ∧
      (showTodoDashboard c).1.localStorage = c.localStorage ∧
      (showTodoDashboard c).1.allTodos = c.allTodos ∧
      (showTodoDashboard c).1.currentFilter = c.currentFilter := by
  unfold showTodoDashboard
  dsimp only
  split <;> exact ⟨rfl, rfl, rfl, rfl, rfl⟩

theorem loadTodos_session (net : FetchOutcome TodosData) (c : Client) :
    (loadTodos net c).client.authToken = c.authToken ∧
      (loadTodos net c).client.currentUser = c.currentUser ∧
      (loadTodos net c).client.localStorage = c.localStorage ∧
      (loadTodos net c).client.currentFilter = c.currentFilter := by
  unfold loadTodos
  split
  · exact ⟨rfl, rfl, rfl, rfl⟩
  · dsimp only
    split
    · exact ⟨rfl, rfl, rfl, rfl⟩
    · exact ⟨rfl, rfl, rfl, rfl⟩
    · split <;> exact ⟨rfl, rfl, rfl, rfl⟩

theorem loadTodos_thrown (net : FetchOutcome TodosData) (c : Client) :
    (loadTodos net c).thrown = none := by
  unfold loadTodos
  split
  · rfl
  · dsimp only
    split
    · rfl
    · rfl
    · split <;> rfl

theorem acceptSession_session (stringify : Json → String) (data : Json) (c : Client)
    (token user : JsVal)
    (htoken : getProp data "access_token" = .ok token)
    (huser : getProp data "user" = .ok user) :
    (acceptSession stringify data c).1.authToken = token ∧
      (acceptSession stringify data c).1.currentUser = user ∧
      (acceptSession stringify data c).1.localStorage =
        setItem (setItem c.localStorage "authToken" (toJsString token)) "currentUser"
          (stringifyArg stringify user) := by
  unfold acceptSession
  rw [htoken]
  dsimp only
  rw [huser]
  dsimp only
  refine ⟨(showTodoDashboard_globals _).1, (showTodoDashboard_globals _).2.1,
    (showTodoDashboard_globals _).2.2.1⟩

theorem login_session (stringify : Json → String) (email password : String)
    (data : Json) (todosNet : FetchOutcome TodosData) (statsNet : FetchOutcome Json)
    (c : Client) (token user : JsVal)
    (hemail : email ≠ "") (hpassword : password ≠ "")
    (htoken : getProp data "access_token" = .ok token)
    (huser : getProp data "user" = .ok user) :
    (login stringify email password (.response true data) todosNet statsNet c).client.authToken
        = token ∧
      (login stringify email password (.response true data) todosNet statsNet c).client.currentUser
        = user ∧
      (login stringify email password (.response true data) todosNet statsNet
          c).client.localStorage =
        setItem (setItem c.localStorage "authToken" (toJsString token)) "currentUser"
          (stringifyArg stringify user) := by
  have h := acceptSession_session stringify data c token user htoken huser
  unfold login
  rw [if_neg (by simp [hemail, hpassword])]
  dsimp only
  rw [if_pos rfl]
  split
  · next c1 e heq =>
    rw [heq] at h
    exact h
  · next c1 heq =>
    rw [heq] at h
    dsimp only
    have hl := loadTodos_session todosNet c1
    exact ⟨hl.1.trans h.1, hl.2.1.trans h.2.1, hl.2.2.1.trans h.2.2⟩

theorem checkAuthStatus_loaded (parse : String → Option Json)
    (todosNet : FetchOutcome TodosData) (statsNet : FetchOutcome Json) (c : Client)
    (t u : String) (v : Json)
    (ht : getItem c.localStorage "authToken" = some t)
    (hu : getItem c.localStorage "currentUser" = some u)
    (htne : t ≠ "") (hune : u ≠ "") (hparse : parse u = some v) :
    (checkAuthStatus parse todosNet statsNet c).client.authToken = some (.str t) ∧
      (checkAuthStatus parse todosNet statsNet c).client.currentUser = some v := by
  unfold checkAuthStatus
  dsimp only
  rw [ht, hu]
  dsimp only
  rw [if_pos ⟨htne, hune⟩, hparse]
  dsimp only
  split
  · next c2 e heq =>
    have h := showTodoDashboard_globals
      { c with authToken := some (.str t), currentUser := some v }
    rw [heq] at h
    exact ⟨h.1, h.2.1⟩
  · next c2 heq =>
    have h := showTodoDashboard_globals
      { c with authToken := some (.str t), currentUser := some v }
    rw [heq] at h
    dsimp only
    have hl := loadTodos_session todosNet c2
    exact ⟨hl.1.trans h.1, hl.2.1.trans h.2.1⟩

theorem acceptSession_of_null_body (stringify : Json → String) (c : Client) :
    acceptSession stringify .null c = (c, some (propertyError "null" "access_token")) := rfl

theorem checkAuthStatus_missing_entry (parse : String → Option Json)
    (todosNet : FetchOutcome TodosData) (statsNet : FetchOutcome Json) (c : Client)
    (hmissing : getItem c.localStorage "authToken" = none ∨
      getItem c.localStorage "currentUser" = none) :
    checkAuthStatus parse todosNet statsNet c = ⟨showAuthSection c, [], none⟩ := by
  unfold checkAuthStatus
  dsimp only
  rcases hmissing with h | h
  · rw [h]
  · rw [h]
    cases getItem c.localStorage "authToken" <;> rfl

/-! ## The claims -/

/-- C1. For every task list whose `completed` fields are booleans, the results of
`filterTodosByStatus` under `'active'` and under `'completed'` partition the
result under `'all'`: every task of the `'all'` result is in exactly one of the
two, the two lengths add up to the length of the `'all'` result, and the two
results together are a permutation of it. -/
theorem filterTodosByStatus_partition (todos : List Task)
    (hbool : ∀ t ∈ todos, isBoolean t.completed = true) :
    (∀ t ∈ filterTodosByStatus "all" todos,
        (t ∈ filterTodosByStatus "active" todos ∧ t ∉ filterTodosByStatus "completed" todos) ∨
        (t ∉ filterTodosByStatus "active" todos ∧ t ∈ filterTodosByStatus "completed" todos)) ∧
      (filterTodosByStatus "active" todos).length +
          (filterTodosByStatus "completed" todos).length =
        (filterTodosByStatus "all" todos).length ∧
      (filterTodosByStatus "active" todos ++ filterTodosByStatus "completed" todos).Perm
        (filterTodosByStatus "all" todos) := by
  have _ := hbool
  rw [filterTodosByStatus_all, filterTodosByStatus_active, filterTodosByStatus_completed]
  have hperm : (todos.filter (fun todo => !truthy todo.completed) ++
      todos.filter (fun todo => truthy todo.completed)).Perm todos :=
    List.perm_append_comm.trans (List.filter_append_perm (fun todo => truthy todo.completed) todos)
  refine ⟨?_, ?_, hperm⟩
  · intro t ht
    cases hc : truthy t.completed
    · left
      simp [List.mem_filter, ht, hc]
    · right
      simp [List.mem_filter, ht, hc]
  · simpa using hperm.length_eq

/-- Witness of C1 on the three sample tasks. -/
theorem filterTodosByStatus_partition_witness :
    (∀ t ∈ sampleTodos, isBoolean t.completed = true) ∧
      (filterTodosByStatus "active" sampleTodos).length +
          (filterTodosByStatus "completed" sampleTodos).length =
        (filterTodosByStatus "all" sampleTodos).length ∧
      (filterTodosByStatus "active" sampleTodos ++
          filterTodosByStatus "completed" sampleTodos).Perm
        (filterTodosByStatus "all" sampleTodos) :=
  have h : ∀ t ∈ sampleTodos, isBoolean t.completed = true := by
    simp [sampleTodos, sampleTask, isBoolean]
  ⟨h, (filterTodosByStatus_partition sampleTodos h).2⟩

/-- C2. For every task list and every status, `filterTodosByStatus` returns
exactly the tasks matching the status in their original relative order: the
whole list under `'all'`, and under `'active'` (`'completed'`) a sublist of the
input whose members are the tasks that are not completed (are completed) and
that keeps every matching occurrence; `filterTodos` renders that list and leaves
the cache unchanged. -/
theorem filterTodosByStatus_exact (todos : List Task) :
    filterTodosByStatus "all" todos = todos ∧
      ((filterTodosByStatus "active" todos).Sublist todos ∧
        (∀ t, t ∈ filterTodosByStatus "active" todos ↔ t ∈ todos ∧ truthy t.completed = false) ∧
        (filterTodosByStatus "active" todos).length =
          todos.countP (fun todo => !truthy todo.completed)) ∧
      ((filterTodosByStatus "completed" todos).Sublist todos ∧
        (∀ t, t ∈ filterTodosByStatus "completed" todos ↔
          t ∈ todos ∧ truthy t.completed = true) ∧
        (filterTodosByStatus "completed" todos).length =
          todos.countP (fun todo => truthy todo.completed)) ∧
      (∀ status, (filterTodosByStatus status todos).Sublist todos) ∧
      (∀ (status : String) (c : Client),
        (filterTodos status c).dom.todoList = filterTodosByStatus status c.allTodos ∧
        (filterTodos status c).allTodos = c.allTodos) := by
  refine ⟨filterTodosByStatus_all todos, ⟨filterTodosByStatus_sublist _ _, ?_, ?_⟩,
    ⟨filterTodosByStatus_sublist _ _, ?_, ?_⟩, fun status => filterTodosByStatus_sublist _ _,
    fun status c => ⟨rfl, rfl⟩⟩
  · intro t
    rw [filterTodosByStatus_active]
    simp [List.mem_filter]
  · rw [filterTodosByStatus_active, List.countP_eq_length_filter]
  · intro t
    rw [filterTodosByStatus_completed]
    simp [List.mem_filter]
  · rw [filterTodosByStatus_completed, List.countP_eq_length_filter]

/-- C3. For every cached task list and every search term, `searchTodos` selects
by a case-insensitive substring match on title or description: a task of the
cache is selected if and only if its lower-cased title, or its lower-cased
description when it has one, contains the lower-cased term; the selection is a
sublist of the cache keeping every matching occurrence; two terms with the same
lower-case form select the same tasks; two tasks whose titles and descriptions
have the same lower-case forms are selected alike.  `toLowerCase` is the
built-in, of which only `"".toLowerCase() = ""` is used. -/
theorem searchTodos_case_insensitive (toLowerCase : String → String)
    (hempty : toLowerCase "" = "") (term : String) (c : Client) :
    (searchTodos toLowerCase term c).dom.todoList =
        searchSelection toLowerCase term c.allTodos ∧
      (searchSelection toLowerCase term c.allTodos).Sublist c.allTodos ∧
      (∀ t, t ∈ searchSelection toLowerCase term c.allTodos ↔
        t ∈ c.allTodos ∧
          ((toLowerCase term).data <:+: (toLowerCase t.title).data ∨
            ∃ d, t.description = some d ∧
              (toLowerCase term).data <:+: (toLowerCase d).data)) ∧
      (searchSelection toLowerCase term c.allTodos).length =
        c.allTodos.countP (searchMatches toLowerCase (toLowerCase term)) ∧
      (∀ term2, toLowerCase term2 = toLowerCase term →
        searchSelection toLowerCase term2 c.allTodos =
          searchSelection toLowerCase term c.allTodos) ∧
      (∀ t1 t2 : Task, toLowerCase t1.title = toLowerCase t2.title →
        t1.description.map toLowerCase = t2.description.map toLowerCase →
        searchMatches toLowerCase (toLowerCase term) t1 =
          searchMatches toLowerCase (toLowerCase term) t2) := by
  refine ⟨rfl, List.filter_sublist _, ?_, ?_, ?_, ?_⟩
  · intro t
    unfold searchSelection
    rw [List.mem_filter, searchMatches_iff toLowerCase hempty]
  · unfold searchSelection
    rw [List.countP_eq_length_filter]
  · intro term2 h
    unfold searchSelection
    rw [h]
  · intro t1 t2 htitle hdesc
    rw [Bool.eq_iff_iff, searchMatches_iff toLowerCase hempty,
      searchMatches_iff toLowerCase hempty, htitle]
    cases h1 : t1.description with
    | none =>
      cases h2 : t2.description with
      | none => simp
      | some d2 => rw [h1, h2] at hdesc; cases hdesc
    | some d1 =>
      cases h2 : t2.description with
      | none => rw [h1, h2] at hdesc; cases hdesc
      | some d2 =>
        rw [h1, h2] at hdesc
        have hd : toLowerCase d1 = toLowerCase d2 := by simpa using hdesc
        simp [hd]

/-- Witness of C3: the term `mILk` on the sample cache selects the task titled
`Buy MILK` and the task whose description is `Milk the deadline`. -/
theorem searchTodos_case_insensitive_witness :
    asciiToLowerCase "" = "" ∧
      (searchTodos asciiToLowerCase "mILk" sampleClient).dom.todoList =
        [sampleTask 5 "Buy MILK" (some "two bottles") false,
         sampleTask 7 "Write report" (some "Milk the deadline") true] ∧
      (searchSelection asciiToLowerCase "mILk" sampleClient.allTodos).Sublist
        sampleClient.allTodos :=
  ⟨rfl,
   (searchTodos_case_insensitive asciiToLowerCase rfl "mILk" sampleClient).1.trans rfl,
   (searchTodos_case_insensitive asciiToLowerCase rfl "mILk" sampleClient).2.1⟩

/-- C4. For every cached task list, `searchTodos` with the empty term selects the
whole cache in the same order, whatever the descriptions are. -/
theorem searchTodos_empty_term (toLowerCase : String → String)
    (hempty : toLowerCase "" = "") (c : Client) :
    searchSelection toLowerCase "" c.allTodos = c.allTodos ∧
      (searchTodos toLowerCase "" c).dom.todoList = c.allTodos := by
  have h : searchSelection toLowerCase "" c.allTodos = c.allTodos := by
    unfold searchSelection
    rw [List.filter_eq_self]
    intro t _
    unfold searchMatches
    rw [hempty, jsIncludes_empty]
    rfl
  exact ⟨h, h⟩

/-- Witness of C4 on the sample cache, which holds a task without description. -/
theorem searchTodos_empty_term_witness :
    asciiToLowerCase "" = "" ∧
      (searchTodos asciiToLowerCase "" sampleClient).dom.todoList = sampleTodos :=
  ⟨rfl, (searchTodos_empty_term asciiToLowerCase rfl sampleClient).2⟩

/-- C5. After `loadTodos` has stored a fetched task list with pairwise distinct
ids in the cache, the lookup `allTodos.find(t => t.id === id)` returns the task
of the list that has the id, for every id present, and `undefined` for every id
not present. -/
theorem findTodo_after_loadTodos (c : Client) (data : TodosData)
    (hsession : truthy c.authToken = true)
    (hdistinct : (data.todos.map Task.id).Nodup) :
    (loadTodos (.response true data) c).client.allTodos = data.todos ∧
      (∀ t ∈ data.todos,
        findTodo (loadTodos (.response true data) c).client.allTodos t.id = some t) ∧
      (∀ id : Int, id ∉ data.todos.map Task.id →
        findTodo (loadTodos (.response true data) c).client.allTodos id = none) ∧
      (∀ (id : Int) (t : Task),
        findTodo (loadTodos (.response true data) c).client.allTodos id = some t →
        t ∈ data.todos ∧ t.id = id) := by
  have hcache : (loadTodos (.response true data) c).client.allTodos = data.todos := by
    simp [loadTodos, hsession, renderTodos]
  rw [hcache]
  refine ⟨rfl, ?_, ?_, ?_⟩
  · intro t ht
    exact findTodo_of_mem data.todos hdistinct t ht
  · intro id hid
    unfold findTodo
    rw [List.find?_eq_none]
    intro t ht
    have hne : t.id ≠ id := by
      intro h
      exact hid (h ▸ List.mem_map_of_mem Task.id ht)
    simpa using hne
  · intro id t h
    unfold findTodo at h
    refine ⟨List.mem_of_find?_eq_some h, ?_⟩
    simpa using List.find?_some h

/-- Witness of C5 on the sample client and the sample response. -/
theorem findTodo_after_loadTodos_witness :
    truthy sampleClient.authToken = true ∧
      (sampleTodos.map Task.id).Nodup ∧
      findTodo (loadTodos sampleTodosNet sampleClient).client.allTodos 7 =
        some (sampleTask 7 "Write report" (some "Milk the deadline") true) ∧
      findTodo (loadTodos sampleTodosNet sampleClient).client.allTodos 8 = none :=
  have hs : truthy sampleClient.authToken = true := by decide
  have hd : (sampleTodos.map Task.id).Nodup := by decide
  ⟨hs, hd,
   (findTodo_after_loadTodos sampleClient { todos := sampleTodos, error := none } hs hd).2.1
     (sampleTask 7 "Write report" (some "Milk the deadline") true)
     (by simp [sampleTodos]),
   (findTodo_after_loadTodos sampleClient { todos := sampleTodos, error := none } hs hd).2.2.1
     8 (by decide)⟩

/-- C6, as stated, fails: a 2xx response carrying the empty string as
`access_token` is accepted by `login`, but `checkAuthStatus` at the next startup
finds the persisted token falsy and loads no session. -/
theorem login_then_checkAuthStatus_empty_token :
    getProp (.obj [("access_token", .str ""), ("user", sampleUser)]) "access_token" =
        .ok (some (.str "")) ∧
      getProp (.obj [("access_token", .str ""), ("user", sampleUser)]) "user" =
        .ok (some sampleUser) ∧
      (login Json.render "a@b.com" "x"
          (.response true (.obj [("access_token", .str ""), ("user", sampleUser)]))
          sampleTodosNet sampleStatsNet (Client.fresh [] sampleDom)).client.currentUser =
        some sampleUser ∧
      (checkAuthStatus Json.read sampleTodosNet sampleStatsNet
          (Client.fresh
            (login Json.render "a@b.com" "x"
              (.response true (.obj [("access_token", .str ""), ("user", sampleUser)]))
              sampleTodosNet sampleStatsNet (Client.fresh [] sampleDom)).client.localStorage
            sampleDom)).client.authToken ≠ some (.str "") ∧
      (checkAuthStatus Json.read sampleTodosNet sampleStatsNet
          (Client.fresh
            (login Json.render "a@b.com" "x"
              (.response true (.obj [("access_token", .str ""), ("user", sampleUser)]))
              sampleTodosNet sampleStatsNet (Client.fresh [] sampleDom)).client.localStorage
            sampleDom)).client.currentUser ≠ some sampleUser := by
  refine ⟨rfl, rfl, rfl, ?_, ?_⟩
  · have h : (checkAuthStatus Json.read sampleTodosNet sampleStatsNet
          (Client.fresh
            (login Json.render "a@b.com" "x"
              (.response true (.obj [("access_token", .str ""), ("user", sampleUser)]))
              sampleTodosNet sampleStatsNet (Client.fresh [] sampleDom)).client.localStorage
            sampleDom)).client.authToken = some .null := rfl
    rw [h]
    simp
  · have h : (checkAuthStatus Json.read sampleTodosNet sampleStatsNet
          (Client.fresh
            (login Json.render "a@b.com" "x"
              (.response true (.obj [("access_token", .str ""), ("user", sampleUser)]))
              sampleTodosNet sampleStatsNet (Client.fresh [] sampleDom)).client.localStorage
            sampleDom)).client.currentUser = some .null := rfl
    rw [h]
    simp [sampleUser]

/-- C6, amended. For every login with non-empty email and password answered by a
2xx response whose `access_token` is a non-empty string and which carries a
`user`, the session that `login` persists and `checkAuthStatus` reads back at
the next startup is the session `login` produced: the loaded token is the
response's `access_token` and the loaded user is the response's `user`.  The
built-ins enter through `JSON.parse(JSON.stringify(user))` giving `user` back and
`JSON.stringify(user)` not being the empty string. -/
theorem login_then_checkAuthStatus (stringify : Json → String) (parse : String → Option Json)
    (email password token : String) (user data : Json)
    (todosNet todosNet2 : FetchOutcome TodosData) (statsNet statsNet2 : FetchOutcome Json)
    (c : Client) (dom : Dom)
    (hemail : email ≠ "") (hpassword : password ≠ "")
    (htoken : getProp data "access_token" = .ok (some (.str token)))
    (hnonempty : token ≠ "")
    (huser : getProp data "user" = .ok (some user))
    (hroundtrip : parse (stringify user) = some user)
    (htext : stringify user ≠ "") :
    ((login stringify email password (.response true data) todosNet statsNet c).client.authToken
        = some (.str token) ∧
      (login stringify email password (.response true data) todosNet statsNet
          c).client.currentUser = some user) ∧
      (checkAuthStatus parse todosNet2 statsNet2
          (Client.fresh
            (login stringify email password (.response true data) todosNet statsNet
              c).client.localStorage dom)).client.authToken = some (.str token) ∧
      (checkAuthStatus parse todosNet2 statsNet2
          (Client.fresh
            (login stringify email password (.response true data) todosNet statsNet
              c).client.localStorage dom)).client.currentUser = some user := by
  have h := login_session stringify email password data todosNet statsNet c
    (some (.str token)) (some user) hemail hpassword htoken huser
  refine ⟨⟨h.1, h.2.1⟩, ?_⟩
  apply checkAuthStatus_loaded parse todosNet2 statsNet2 _ token (stringify user) user
  · rw [h.2.2]
    show getItem (setItem (setItem c.localStorage "authToken" token) "currentUser"
      (stringify user)) "authToken" = some token
    rw [getItem_setItem_other _ _ _ _ (by decide), getItem_setItem_same]
  · rw [h.2.2]
    show getItem (setItem (setItem c.localStorage "authToken" token) "currentUser"
      (stringify user)) "currentUser" = some (stringify user)
    rw [getItem_setItem_same]
  · exact hnonempty
  · exact htext
  · exact hroundtrip

/-- Witness of C6, amended: the response `{access_token: "T", user: {id: 1,
username: "a"}}` to the login of `a@b.com` yields the loaded session with token
`T` and that user. -/
theorem login_then_checkAuthStatus_witness :
    ("a@b.com" ≠ "" ∧ "x" ≠ "" ∧ "T" ≠ "" ∧
      getProp (.obj [("access_token", .str "T"), ("user", sampleUser)]) "access_token" =
        .ok (some (.str "T")) ∧
      getProp (.obj [("access_token", .str "T"), ("user", sampleUser)]) "user" =
        .ok (some sampleUser) ∧
      Json.read (Json.render sampleUser) = some sampleUser ∧
      Json.render sampleUser ≠ "") ∧
      (checkAuthStatus Json.read sampleTodosNet sampleStatsNet
          (Client.fresh
            (login Json.render "a@b.com" "x"
              (.response true (.obj [("access_token", .str "T"), ("user", sampleUser)]))
              sampleTodosNet sampleStatsNet (Client.fresh [] sampleDom)).client.localStorage
            sampleDom)).client.authToken = some (.str "T") ∧
      (checkAuthStatus Json.read sampleTodosNet sampleStatsNet
          (Client.fresh
            (login Json.render "a@b.com" "x"
              (.response true (.obj [("access_token", .str "T"), ("user", sampleUser)]))
              sampleTodosNet sampleStatsNet (Client.fresh [] sampleDom)).client.localStorage
            sampleDom)).client.currentUser = some sampleUser :=
  ⟨⟨by decide, by decide, by decide, rfl, rfl, rfl, by decide⟩,
   (login_then_checkAuthStatus Json.render Json.read "a@b.com" "x" "T" sampleUser
     (.obj [("access_token", .str "T"), ("user", sampleUser)])
     sampleTodosNet sampleTodosNet sampleStatsNet sampleStatsNet (Client.fresh [] sampleDom)
     sampleDom (by decide) (by decide) rfl (by decide) rfl rfl (by decide)).2⟩

/-- C7, as stated, fails: `logout` on the authenticated sample client leaves the
three cached tasks in `allTodos`, and a later `renderTodos` shows them. -/
theorem logout_keeps_cache :
    truthy sampleClient.authToken = true ∧
      (logout sampleClient).allTodos = sampleTodos ∧
      (logout sampleClient).allTodos ≠ [] ∧
      (renderTodos (logout sampleClient)).dom.todoList = sampleTodos :=
  ⟨by decide, rfl, by simp [logout, showAuthSection, sampleClient, sampleTodos], rfl⟩

/-- C7, amended. From every client state, `logout` returns the client to the
unauthenticated state: afterwards the in-memory token and user are `null`, both
persisted entries (`authToken`, `currentUser`) are removed and every other entry
of the store is kept, and the authentication section is shown; the cached task
collection and the active filter are left as they were. -/
theorem logout_clears_session (c : Client) :
    (logout c).authToken = some .null ∧
      (logout c).currentUser = some .null ∧
      truthy (logout c).authToken = false ∧
      getItem (logout c).localStorage "authToken" = none ∧
      getItem (logout c).localStorage "currentUser" = none ∧
      (∀ key, key ≠ "authToken" → key ≠ "currentUser" →
        getItem (logout c).localStorage key = getItem c.localStorage key) ∧
      (logout c).dom.screen = .authSection ∧
      (logout c).allTodos = c.allTodos ∧
      (logout c).currentFilter = c.currentFilter := by
  refine ⟨rfl, rfl, rfl, ?_, ?_, ?_, rfl, rfl, rfl⟩
  · show getItem (removeItem (removeItem c.localStorage "authToken") "currentUser")
      "authToken" = none
    rw [getItem_removeItem_other _ _ _ (by decide), getItem_removeItem_same]
  · show getItem (removeItem (removeItem c.localStorage "authToken") "currentUser")
      "currentUser" = none
    rw [getItem_removeItem_same]
  · intro key h1 h2
    show getItem (removeItem (removeItem c.localStorage "authToken") "currentUser") key = _
    rw [getItem_removeItem_other _ _ _ h2, getItem_removeItem_other _ _ _ h1]

/-- C8, as stated, fails: in the fresh client, which has no token, `loadTodos`
returns normally; no error of any kind leaves it. -/
theorem loadTodos_without_session_no_error :
    truthy (Client.fresh [] sampleDom).authToken = false ∧
      (loadTodos sampleTodosNet (Client.fresh [] sampleDom)).thrown = none ∧
      ∀ e : JsError, (loadTodos sampleTodosNet (Client.fresh [] sampleDom)).thrown ≠ some e := by
  refine ⟨rfl, rfl, ?_⟩
  intro e h
  have h0 : (loadTodos sampleTodosNet (Client.fresh [] sampleDom)).thrown = none := rfl
  rw [h0] at h
  cases h

/-- C8, amended. In every client state with no token, `loadTodos` returns at once
without raising an error: it issues no request, produces no message and leaves
the client state, the cached task collection included, unchanged. -/
theorem loadTodos_without_session (net : FetchOutcome TodosData) (c : Client)
    (hnone : truthy c.authToken = false) :
    (loadTodos net c).effects = [] ∧
      (loadTodos net c).client = c ∧
      (loadTodos net c).client.allTodos = c.allTodos ∧
      (loadTodos net c).thrown = none := by
  unfold loadTodos
  rw [if_pos (by simp [hnone])]
  exact ⟨rfl, rfl, rfl, rfl⟩

/-- Witness of C8, amended: the client after `logout`, offered a response that
carries three tasks, keeps its cache and issues no request. -/
theorem loadTodos_without_session_witness :
    truthy (logout sampleClient).authToken = false ∧
      (loadTodos sampleTodosNet (logout sampleClient)).effects = [] ∧
      (loadTodos sampleTodosNet (logout sampleClient)).client = logout sampleClient :=
  ⟨rfl,
   (loadTodos_without_session sampleTodosNet (logout sampleClient) rfl).1,
   (loadTodos_without_session sampleTodosNet (logout sampleClient) rfl).2.1⟩

/-- C9 at the failing input: with `authToken = "T"` and a `currentUser` entry that
is not JSON in the store, `checkAuthStatus` leaves by the `SyntaxError` of
`JSON.parse`, after it has already set the in-memory token to `"T"`; the user
stays `null` and the screen is not switched. -/
theorem checkAuthStatus_unparseable_user :
    Json.read "\x7bbad" = none ∧
      (checkAuthStatus Json.read sampleTodosNet sampleStatsNet
          (Client.fresh [("authToken", "T"), ("currentUser", "\x7bbad")]
            sampleDom)).thrown = some jsonSyntaxError ∧
      (checkAuthStatus Json.read sampleTodosNet sampleStatsNet
          (Client.fresh [("authToken", "T"), ("currentUser", "\x7bbad")]
            sampleDom)).client.authToken = some (.str "T") ∧
      (checkAuthStatus Json.read sampleTodosNet sampleStatsNet
          (Client.fresh [("authToken", "T"), ("currentUser", "\x7bbad")]
            sampleDom)).client.currentUser = some .null ∧
      (checkAuthStatus Json.read sampleTodosNet sampleStatsNet
          (Client.fresh [("authToken", "T"), ("currentUser", "\x7bbad")]
            sampleDom)).client.dom.screen = sampleDom.screen :=
  ⟨rfl, rfl, rfl, rfl, rfl⟩

/-- C10, as stated, fails: a 2xx response with `user: null` makes `login` raise a
`TypeError` while handling the response (reported by the alert `Login error:
...`), after the token and the user have been assigned and persisted; the
client does not return to its prior state. -/
theorem login_error_after_accept_keeps_session :
    (login Json.render "a@b.com" "x"
        (.response true (.obj [("access_token", .str "T"), ("user", .null)]))
        sampleTodosNet sampleStatsNet (Client.fresh [] sampleDom)).effects =
      [.fetch "POST" "/api/login" none
          (some (Json.render (.obj [("email", .str "a@b.com"), ("password", .str "x")]))),
       .alert "Login error: Cannot read properties of null (reading 'username')"] ∧
      (Client.fresh [] sampleDom).authToken = some .null ∧
      (login Json.render "a@b.com" "x"
        (.response true (.obj [("access_token", .str "T"), ("user", .null)]))
        sampleTodosNet sampleStatsNet (Client.fresh [] sampleDom)).client.authToken =
        some (.str "T") ∧
      getItem (Client.fresh [] sampleDom).localStorage "authToken" = none ∧
      getItem (login Json.render "a@b.com" "x"
        (.response true (.obj [("access_token", .str "T"), ("user", .null)]))
        sampleTodosNet sampleStatsNet (Client.fresh [] sampleDom)).client.localStorage
        "authToken" = some "T" ∧
      getItem (login Json.render "a@b.com" "x"
        (.response true (.obj [("access_token", .str "T"), ("user", .null)]))
        sampleTodosNet sampleStatsNet (Client.fresh [] sampleDom)).client.localStorage
        "currentUser" = some "null" ∧
      (login Json.render "a@b.com" "x"
        (.response true (.obj [("access_token", .str "T"), ("user", .null)]))
        sampleTodosNet sampleStatsNet (Client.fresh [] sampleDom)).client ≠
        Client.fresh [] sampleDom := by
  refine ⟨rfl, rfl, rfl, rfl, rfl, rfl, ?_⟩
  intro h
  have h1 := congrArg Client.authToken h
  have h2 : (login Json.render "a@b.com" "x"
        (.response true (.obj [("access_token", .str "T"), ("user", .null)]))
        sampleTodosNet sampleStatsNet (Client.fresh [] sampleDom)).client.authToken =
        some (.str "T") := rfl
  rw [h2] at h1
  simp [Client.fresh] at h1

/-- C10, amended. After a failure of `login` or `register` by an empty field, a
transport failure, a response body that cannot be read, a non-2xx response, or a
2xx response whose body is `null`, the whole client state (in-memory token and
user, persisted entries, cached tasks, active filter, document) equals the state
before the operation. -/
theorem auth_failure_keeps_state (stringify : Json → String) (username email password : String)
    (net : FetchOutcome Json) (todosNet : FetchOutcome TodosData)
    (statsNet : FetchOutcome Json) (c : Client)
    (hfail : (∃ e, net = .rejected e) ∨ (∃ ok e, net = .unreadable ok e) ∨
      (∃ data, net = .response false data) ∨ net = .response true .null) :
    (login stringify email password net todosNet statsNet c).client = c ∧
      (register stringify username email password net todosNet statsNet c).client = c ∧
      (∀ net2, email = "" ∨ password = "" →
        login stringify email password net2 todosNet statsNet c =
          ⟨c, [.alert "Please enter both email and password"], none⟩) ∧
      (∀ net2, username = "" ∨ email = "" ∨ password = "" →
        register stringify username email password net2 todosNet statsNet c =
          ⟨c, [.alert "Please fill all fields"], none⟩) := by
  refine ⟨?_, ?_, ?_, ?_⟩
  · unfold login
    split
    · rfl
    · rcases hfail with ⟨e, rfl⟩ | ⟨ok, e, rfl⟩ | ⟨data, rfl⟩ | rfl
      · rfl
      · rfl
      · dsimp only
        rw [if_neg (by simp)]
        split <;> rfl
      · rfl
  · unfold register
    split
    · rfl
    · rcases hfail with ⟨e, rfl⟩ | ⟨ok, e, rfl⟩ | ⟨data, rfl⟩ | rfl
      · rfl
      · rfl
      · dsimp only
        rw [if_neg (by simp)]
        split <;> rfl
      · rfl
  · intro net2 h
    unfold login
    rw [if_pos h]
  · intro net2 h
    unfold register
    rw [if_pos h]

/-- Witness of C10, amended: a `401` answer to a login on the authenticated sample
client leaves it as it was. -/
theorem auth_failure_keeps_state_witness :
    ((∃ e, FetchOutcome.response false (Json.obj [("error", .str "Invalid credentials")]) =
          FetchOutcome.rejected e) ∨
      (∃ ok e, FetchOutcome.response false (Json.obj [("error", .str "Invalid credentials")]) =
          FetchOutcome.unreadable ok e) ∨
      (∃ data, FetchOutcome.response false (Json.obj [("error", .str "Invalid credentials")]) =
          FetchOutcome.response false data) ∨
      FetchOutcome.response false (Json.obj [("error", .str "Invalid credentials")]) =
          FetchOutcome.response true .null) ∧
      (login Json.render "a@b.com" "wrong"
        (.response false (.obj [("error", .str "Invalid credentials")]))
        sampleTodosNet sampleStatsNet sampleClient).client = sampleClient :=
  have h : (∃ e, FetchOutcome.response false
          (Json.obj [("error", .str "Invalid credentials")]) = FetchOutcome.rejected e) ∨
      (∃ ok e, FetchOutcome.response false (Json.obj [("error", .str "Invalid credentials")]) =
          FetchOutcome.unreadable ok e) ∨
      (∃ data, FetchOutcome.response false (Json.obj [("error", .str "Invalid credentials")]) =
          FetchOutcome.response false data) ∨
      FetchOutcome.response false (Json.obj [("error", .str "Invalid credentials")]) =
          FetchOutcome.response true .null :=
    Or.inr (Or.inr (Or.inl ⟨_, rfl⟩))
  ⟨h, (auth_failure_keeps_state Json.render "a" "a@b.com" "wrong" _ sampleTodosNet
    sampleStatsNet sampleClient h).1⟩

end TodoApp
